import Mathlib

set_option maxHeartbeats 1000000

/-- An RGBA color: four 8-bit channels, as used by the PIL images in the
repository's scripts. -/
structure RGBA where
  r : ℕ
  g : ℕ
  b : ℕ
  a : ℕ
deriving DecidableEq

/-- The fully transparent color (0,0,0,0). -/
def transparent : RGBA := ⟨0, 0, 0, 0⟩

/-- Opaque black, the foreground color written by the tracer. -/
def black : RGBA := ⟨0, 0, 0, 255⟩

/-- A rectangular RGBA pixel buffer (a PIL Image in RGBA mode): the Canvas
data model.  Pixels are addressed by x (column, left to right) and y (row,
top to bottom); only coordinates with x < width and y < height are
meaningful. -/
structure Img where
  width : ℕ
  height : ℕ
  px : ℕ → ℕ → RGBA

/-- A single-channel pixel buffer (a PIL Image in L mode). -/
structure GImg where
  width : ℕ
  height : ℕ
  px : ℕ → ℕ → ℕ

/-- Python's int() applied to a rational: truncation toward zero. -/
def pytrunc (q : ℚ) : ℤ :=
  if q < 0 then ⌈q⌉ else ⌊q⌋

/-- One level of the per-depth branch table consumed by draw_organic_branch
(the Python dict values {spread, length_factor, width_factor}). -/
structure BranchParams where
  spread : ℚ
  length_factor : ℚ
  width_factor : ℚ
deriving DecidableEq

/-- One drawn branch segment together with its rounded end cap, recorded from
a single non-returning call of draw_branch or draw_organic_branch: the call
arguments (start point, angle, length, width, depth, color), the computed end
point, and the cap radius of the ellipse drawn at the end point. -/
structure Segment where
  start : ℚ × ℚ
  endp : ℚ × ℚ
  angle : ℚ
  length : ℚ
  width : ℚ
  capR : ℚ
  depth : ℕ
  color : RGBA
deriving DecidableEq

/-- Fuel-indexed body of draw_organic_branch (src/docs/create_dock_logo_v2.py,
lines 13-48).  The degree-sine and degree-cosine of the source, that is
math.sin(math.radians a) and math.cos(math.radians a), are abstract
parameters sinD and cosD.  The wrapper draw_organic_branch supplies
fuel = max_depth + 1 - depth, which the guard depth > max_depth makes exact:
fuel reaches 0 exactly when that guard already returns the empty trace, so the
fuel-0 clause never cuts a trace short. -/
def branchAuxV2 (sinD cosD : ℚ → ℚ) (color : RGBA)
    (branch_data : ℕ → Option BranchParams) :
    ℕ → ℚ × ℚ → ℚ → ℚ → ℚ → ℕ → ℕ → List Segment
  | 0, _, _, _, _, _, _ => []
  | fuel + 1, start, angle, length, width, depth, max_depth =>
    if max_depth < depth ∨ length < 3 ∨ width < 1 then []
    else
      let end_x := start.1 + length * sinD angle
      let end_y := start.2 - length * cosD angle
      let params := (branch_data depth).getD ⟨40, 0.6, 0.7⟩
      let new_length := length * params.length_factor
      let new_width := width * params.width_factor
      let left_spread := params.spread + (depth : ℚ) * 3
      let right_spread := params.spread + (depth : ℚ) * 2
      ⟨start, (end_x, end_y), angle, length, width, width / 2.2, depth, color⟩ ::
        (branchAuxV2 sinD cosD color branch_data fuel (end_x, end_y)
            (angle - left_spread) new_length new_width (depth + 1) max_depth ++
          branchAuxV2 sinD cosD color branch_data fuel (end_x, end_y)
            (angle + right_spread) new_length new_width (depth + 1) max_depth)

/-- draw_organic_branch from src/docs/create_dock_logo_v2.py: the list, in
drawing order, of the segments (each with its end cap) the call emits into
the canvas. -/
def draw_organic_branch (sinD cosD : ℚ → ℚ) (start : ℚ × ℚ)
    (angle length width : ℚ) (depth max_depth : ℕ) (color : RGBA)
    (branch_data : ℕ → Option BranchParams) : List Segment :=
  branchAuxV2 sinD cosD color branch_data (max_depth + 1 - depth)
    start angle length width depth max_depth

/-- Fuel-indexed body of draw_branch (src/docs/create_dock_logo.py, lines
13-47), the first variant of the synthesizer: hard-coded decay factors 0.65
and 0.7, symmetric spread 35 + depth * 5, end cap radius width / 2, and a
guard on depth and length only (no width condition). -/
def branchAuxV1 (sinD cosD : ℚ → ℚ) (color : RGBA) :
    ℕ → ℚ × ℚ → ℚ → ℚ → ℚ → ℕ → ℕ → List Segment
  | 0, _, _, _, _, _, _ => []
  | fuel + 1, start, angle, length, width, depth, max_depth =>
    if max_depth < depth ∨ length < 2 then []
    else
      let end_x := start.1 + length * sinD angle
      let end_y := start.2 - length * cosD angle
      let new_length := length * 0.65
      let new_width := width * 0.7
      let spread := 35 + (depth : ℚ) * 5
      ⟨start, (end_x, end_y), angle, length, width, width / 2, depth, color⟩ ::
        (branchAuxV1 sinD cosD color fuel (end_x, end_y) (angle - spread)
            new_length new_width (depth + 1) max_depth ++
          branchAuxV1 sinD cosD color fuel (end_x, end_y) (angle + spread)
            new_length new_width (depth + 1) max_depth)

/-- draw_branch from src/docs/create_dock_logo.py: the list, in drawing
order, of the segments (each with its end cap) the call emits. -/
def draw_branch (sinD cosD : ℚ → ℚ) (start : ℚ × ℚ)
    (angle length width : ℚ) (depth max_depth : ℕ) (color : RGBA) :
    List Segment :=
  branchAuxV1 sinD cosD color (max_depth + 1 - depth)
    start angle length width depth max_depth

/-- A primitive drawing operation issued to the PIL ImageDraw object: a line
with an integer stroke width, an ellipse given by its bounding rectangle, or
a filled polygon. -/
inductive Op where
  | line (p q : ℚ × ℚ) (w : ℤ) (color : RGBA)
  | ellipse (x1 y1 x2 y2 : ℚ) (color : RGBA)
  | polygon (pts : List (ℚ × ℚ)) (color : RGBA)
deriving DecidableEq

/-- The two ImageDraw calls a drawn branch segment performs, in order:
draw.line with stroke width max(1, int(width)), then draw.ellipse for the
rounded cap with bounding box end ± cap radius. -/
def segToOps (s : Segment) : List Op :=
  [Op.line s.start s.endp (max 1 (pytrunc s.width)) s.color,
   Op.ellipse (s.endp.1 - s.capR) (s.endp.2 - s.capR)
     (s.endp.1 + s.capR) (s.endp.2 + s.capR) s.color]

/-- draw_git_tag_diamond from src/docs/create_dock_logo_v2.py, lines 51-95:
outer diamond, inner diamond, two lines of the git-branch motif, and three
end dots, in drawing order. -/
def draw_git_tag_diamond (cx cy size : ℚ) (color inner_color : RGBA) :
    List Op :=
  let half := size / 2
  let points := [(cx, cy - half), (cx + half, cy), (cx, cy + half), (cx - half, cy)]
  let inner_half := half * 0.72
  let inner_points :=
    [(cx, cy - inner_half), (cx + inner_half, cy), (cx, cy + inner_half), (cx - inner_half, cy)]
  let line_w := max 2 (size * 0.09)
  let dot_r := size * 0.07
  let main_len := inner_half * 0.6
  let p1 := (cx - main_len * 0.5, cy + main_len * 0.5)
  let p2 := (cx + main_len * 0.5, cy - main_len * 0.5)
  let branch_start := (cx - main_len * 0.1, cy + main_len * 0.1)
  let branch_end := (cx + main_len * 0.4, cy + main_len * 0.25)
  [Op.polygon points color,
   Op.polygon inner_points inner_color,
   Op.line p1 p2 (pytrunc line_w) color,
   Op.line branch_start branch_end (pytrunc line_w) color] ++
    ([p1, p2, branch_end].map fun p =>
      Op.ellipse (p.1 - dot_r) (p.2 - dot_r) (p.1 + dot_r) (p.2 + dot_r) color)

/-- A library-level failure of the renderer: PIL's Image.new raises
ValueError when asked for a canvas with a negative width or height (a 0 x 0
canvas is accepted), before any drawing happens on it. -/
inductive PILError where
  | valueError
deriving DecidableEq

/-- The ordered trace of ImageDraw operations create_grove_dock_icon_v2
(src/docs/create_dock_logo_v2.py, lines 98-166) issues once its canvas
exists: trunk line, left main branch, right main branch, connection line,
git tag.  The size is an integer as in the source (a Python int); the trig
functions are the same abstract sinD and cosD as in draw_organic_branch. -/
def icon_ops (sinD cosD : ℚ → ℚ) (size : ℤ) (color : RGBA)
    (bg_color : Option RGBA) (padding_frac : ℚ) : List Op :=
  let inner_color := bg_color.getD transparent
  let padding := pytrunc ((size : ℚ) * padding_frac)
  let cx := Int.fdiv size 2
  let tag_size := (size : ℚ) * 0.14
  let tag_bottom : ℚ := (size : ℚ) - (padding : ℚ)
  let tag_center_y := tag_bottom - tag_size * 0.6
  let trunk_bottom_y := tag_center_y - tag_size * 0.6
  let trunk_top_y := trunk_bottom_y - (size : ℚ) * 0.22
  let trunk_width := (size : ℚ) * 0.055
  let branch_data : ℕ → Option BranchParams := fun d =>
    if d = 0 then some ⟨28, 0.72, 0.78⟩
    else if d = 1 then some ⟨35, 0.68, 0.72⟩
    else if d = 2 then some ⟨42, 0.62, 0.65⟩
    else if d = 3 then some ⟨48, 0.55, 0.58⟩
    else if d = 4 then some ⟨55, 0.5, 0.5⟩
    else none
  let main_branch_length := (size : ℚ) * 0.18
  let main_branch_width := trunk_width * 0.9
  let trunk_top : ℚ × ℚ := ((cx : ℚ), trunk_top_y)
  let tag_cx := (cx : ℚ) - (size : ℚ) * 0.06
  let conn_top : ℚ × ℚ := ((cx : ℚ), trunk_bottom_y)
  let conn_bottom : ℚ × ℚ := (tag_cx, tag_center_y - tag_size * 0.5)
  let conn_width := max 2 (trunk_width * 0.5)
  Op.line ((cx : ℚ), trunk_bottom_y) ((cx : ℚ), trunk_top_y) (pytrunc trunk_width) color ::
    ((draw_organic_branch sinD cosD trunk_top (-22) main_branch_length main_branch_width
        0 4 color branch_data).flatMap segToOps ++
      (draw_organic_branch sinD cosD trunk_top 22 main_branch_length main_branch_width
        0 4 color branch_data).flatMap segToOps ++
      (Op.line conn_top conn_bottom (pytrunc conn_width) color ::
        draw_git_tag_diamond tag_cx tag_center_y tag_size color inner_color))

/-- create_grove_dock_icon_v2 from src/docs/create_dock_logo_v2.py, lines
98-166: the function's first use of its size is Image.new, which raises
ValueError for a negative canvas size before any drawing occurs (PIL
accepts a 0 x 0 canvas); with the canvas created, the function issues
exactly the drawing trace icon_ops. -/
def create_grove_dock_icon_v2 (sinD cosD : ℚ → ℚ) (size : ℤ) (color : RGBA)
    (bg_color : Option RGBA) (padding_frac : ℚ) : Except PILError (List Op) :=
  if size < 0 then Except.error PILError.valueError
  else Except.ok (icon_ops sinD cosD size color bg_color padding_frac)

/-- create_supersampled_v2 from src/docs/create_dock_logo_v2.py, lines
169-173: the icon rendered at target_size * supersample, with the source's
default padding_frac 0.08.  The final Lanczos downsample is a library call
that runs only after all drawing and issues no further drawing operations,
so it does not extend the trace. -/
def create_supersampled_v2 (sinD cosD : ℚ → ℚ) (target_size : ℤ) (color : RGBA)
    (bg_color : Option RGBA) (supersample : ℤ) : Except PILError (List Op) :=
  create_grove_dock_icon_v2 sinD cosD (target_size * supersample) color bg_color 0.08

/-- PIL's RGBA-to-L luminance (convert to L mode), ITU-R 601-2 in the fixed
point form PIL uses: (r * 19595 + g * 38470 + b * 7471 + 32768) >> 16. -/
def lum (p : RGBA) : ℕ :=
  (p.r * 19595 + p.g * 38470 + p.b * 7471 + 32768) / 65536

/-- trace_reference from src/docs/trace_logo.py, lines 9-41, as a function of
the decoded reference bitmap (the file read is the caller's input): crop the
left half, threshold the luminance at 128 into a binary mask, and write an
RGBA result that is opaque black exactly at mask value 255 and fully
transparent elsewhere.  Returns the (result, binary) pair of the source. -/
def trace_reference (ref : Img) : Img × GImg :=
  let left_half : Img := ⟨ref.width / 2, ref.height, fun x y => ref.px x y⟩
  let binary : GImg :=
    ⟨left_half.width, left_half.height,
      fun x y => if lum (left_half.px x y) < 128 then 255 else 0⟩
  (⟨binary.width, binary.height,
      fun x y => if binary.px x y = 255 then black else transparent⟩,
    binary)

/-- The in-range pixels of an image that PIL's getbbox treats as non-zero
(any channel non-zero), in column-major scan order. -/
def foreground (img : Img) : List (ℕ × ℕ) :=
  (List.range img.width).flatMap fun x =>
    (List.range img.height).filterMap fun y =>
      if img.px x y = transparent then none else some (x, y)

/-- PIL Image.getbbox: none for an image with no non-zero pixel, otherwise
(left, upper, right, lower) where left/upper are the least x/y of a non-zero
pixel and right/lower are one past the greatest such x/y (PIL's bounding box
is exclusive on its right and lower edges, matching crop semantics). -/
def getbbox (img : Img) : Option (ℕ × ℕ × ℕ × ℕ) :=
  match foreground img with
  | [] => none
  | p :: ps =>
    some (((p :: ps).map Prod.fst).foldl min p.1,
      ((p :: ps).map Prod.snd).foldl min p.2,
      ((p :: ps).map Prod.fst).foldl max p.1 + 1,
      ((p :: ps).map Prod.snd).foldl max p.2 + 1)

/-- clean_and_resize from src/docs/trace_logo.py, lines 44-70.  The two PIL
library calls that the function delegates to are abstract parameters: resize
(Lanczos resampling to a given width and height) and paste (alpha-masked
paste of an image onto a canvas at a given offset).  When the bounding box
exists the source crops to it, builds a square transparent canvas of side
int(max_dim / (1 - 2 * padding)), centers the crop with integer floor
division, and resizes; with no bounding box it resizes the input directly.
On the bounding-box branch Python would raise on a division by zero at
padding = 1/2 or a negative canvas side; the rational embedding is total
there and no claim is settled on such inputs. -/
def clean_and_resize (resize : Img → ℕ → ℕ → Img)
    (paste : Img → Img → ℤ → ℤ → Img)
    (img : Img) (target_size : ℕ) (padding : ℚ) : Img :=
  match getbbox img with
  | some (l, u, r, lo) =>
    let cropped : Img := ⟨r - l, lo - u, fun x y => img.px (x + l) (y + u)⟩
    let cw := r - l
    let ch := lo - u
    let max_dim := max cw ch
    let padded_size := (pytrunc ((max_dim : ℚ) / (1 - 2 * padding))).toNat
    let canvas : Img := ⟨padded_size, padded_size, fun _ _ => transparent⟩
    let x := Int.fdiv ((padded_size : ℤ) - (cw : ℤ)) 2
    let y := Int.fdiv ((padded_size : ℤ) - (ch : ℤ)) 2
    resize (paste canvas cropped x y) target_size target_size
  | none => resize img target_size target_size

/-- create_light_version from src/docs/trace_logo.py, lines 73-87: a new
canvas of the same size, initially all (0,0,0,0), with (255,255,255,a)
written at every pixel whose source alpha a is positive. -/
def create_light_version (dark_img : Img) : Img :=
  ⟨dark_img.width, dark_img.height, fun x y =>
    if 0 < (dark_img.px x y).a
    then ⟨255, 255, 255, (dark_img.px x y).a⟩
    else transparent⟩

/-- The branch table of the concrete scenario: depth 0 maps to spread 30,
length factor 0.6, width factor 0.7; every other depth is absent from the
table (so the documented default would apply there). -/
def tableC1 : ℕ → Option BranchParams :=
  fun d => if d = 0 then some ⟨30, 0.6, 0.7⟩ else none

/-- Concrete degree-sine used to instantiate witnesses: constantly 0, which
agrees with the real degree-sine at the only angle the theorems constrain
(angle 0). -/
def sinZ : ℚ → ℚ := fun _ => 0

/-- Concrete degree-cosine used to instantiate witnesses: constantly 1, which
agrees with the real degree-cosine at angle 0. -/
def cosO : ℚ → ℚ := fun _ => 1

/-- A 16 x 16 test image whose non-transparent pixels are exactly (5,5) and
(10,12). -/
def imgC3 : Img :=
  ⟨16, 16, fun x y =>
    if (x = 5 ∧ y = 5) ∨ (x = 10 ∧ y = 12) then black else transparent⟩

/-- A fully transparent 4 x 4 test image. -/
def imgT : Img := ⟨4, 4, fun _ _ => transparent⟩

/-- A 1 x 1 test image with a partially transparent non-black pixel. -/
def imgD : Img := ⟨1, 1, fun _ _ => ⟨3, 4, 5, 200⟩⟩

/-- A 1 x 1 test image with alpha 77 and one RGB value. -/
def imgA : Img := ⟨1, 1, fun _ _ => ⟨9, 9, 9, 77⟩⟩

/-- A 1 x 1 test image with the same alpha 77 but different RGB. -/
def imgB : Img := ⟨1, 1, fun _ _ => ⟨1, 2, 3, 77⟩⟩

/-- A concrete stand-in for the abstract PIL resize collaborator, used to
instantiate witnesses: it returns a transparent canvas of the requested
size. -/
def rz0 : Img → ℕ → ℕ → Img := fun _ w h => ⟨w, h, fun _ _ => transparent⟩

/-- A concrete stand-in for the abstract PIL paste collaborator, used to
instantiate witnesses: it returns the canvas unchanged. -/
def ps0 : Img → Img → ℤ → ℤ → Img := fun c _ _ _ => c

/-- The single segment drawn by draw_branch sinZ cosO (0,0) 0 10 10 0 0. -/
def segW1 : Segment := ⟨(0, 0), (0, -10), 0, 10, 10, 5, 0, black⟩

/-- The single segment drawn by draw_organic_branch sinZ cosO (0,0) 0 10 10
0 0 with the empty branch table. -/
def segW2 : Segment := ⟨(0, 0), (0, -10), 0, 10, 10, 50 / 11, 0, black⟩

/-- The single segment drawn by draw_organic_branch sinZ cosO (0,0) 0 100 10
0 0 with the empty branch table. -/
def segW3 : Segment := ⟨(0, 0), (0, -100), 0, 100, 10, 50 / 11, 0, black⟩

/-- The single segment drawn by draw_branch sinZ cosO (0,0) 0 100 10 0 0. -/
def segW4 : Segment := ⟨(0, 0), (0, -100), 0, 100, 10, 5, 0, black⟩

theorem cons_append_length_le {α : Type} (x : α) (L R : List α) (k : ℕ)
    (hL : L.length ≤ 2 ^ k - 1) (hR : R.length ≤ 2 ^ k - 1) :
    (x :: (L ++ R)).length ≤ 2 ^ (k + 1) - 1 := by
  have h1 : (1 : ℕ) ≤ 2 ^ k := Nat.one_le_pow k 2 (by norm_num)
  have h2 : (2 : ℕ) ^ (k + 1) = 2 * 2 ^ k := by rw [pow_succ]; ring
  simp only [List.length_cons, List.length_append]
  omega

theorem branchAuxV2_length_le (sinD cosD : ℚ → ℚ) (color : RGBA)
    (branch_data : ℕ → Option BranchParams) :
    ∀ (fuel : ℕ) (start : ℚ × ℚ) (angle length width : ℚ) (depth max_depth : ℕ),
      (branchAuxV2 sinD cosD color branch_data fuel start angle length width
          depth max_depth).length ≤ 2 ^ fuel - 1 := by
  intro fuel
  induction fuel with
  | zero =>
    intro start angle length width depth max_depth
    simp [branchAuxV2]
  | succ m ih =>
    intro start angle length width depth max_depth
    rw [branchAuxV2]
    split
    · simp
    · exact cons_append_length_le _ _ _ m (ih _ _ _ _ _ _) (ih _ _ _ _ _ _)

theorem branchAuxV1_length_le (sinD cosD : ℚ → ℚ) (color : RGBA) :
    ∀ (fuel : ℕ) (start : ℚ × ℚ) (angle length width : ℚ) (depth max_depth : ℕ),
      (branchAuxV1 sinD cosD color fuel start angle length width
          depth max_depth).length ≤ 2 ^ fuel - 1 := by
  intro fuel
  induction fuel with
  | zero =>
    intro start angle length width depth max_depth
    simp [branchAuxV1]
  | succ m ih =>
    intro start angle length width depth max_depth
    rw [branchAuxV1]
    split
    · simp
    · exact cons_append_length_le _ _ _ m (ih _ _ _ _ _ _) (ih _ _ _ _ _ _)

theorem branchAuxV2_mem (sinD cosD : ℚ → ℚ) (color : RGBA)
    (branch_data : ℕ → Option BranchParams) :
    ∀ (fuel : ℕ) (start : ℚ × ℚ) (angle length width : ℚ) (depth max_depth : ℕ)
      (s : Segment),
      s ∈ branchAuxV2 sinD cosD color branch_data fuel start angle length width
          depth max_depth →
      (depth ≤ s.depth ∧ s.depth ≤ max_depth) ∧ s.capR = s.width / 2.2 := by
  intro fuel
  induction fuel with
  | zero =>
    intro start angle length width depth max_depth s hs
    simp [branchAuxV2] at hs
  | succ m ih =>
    intro start angle length width depth max_depth s hs
    rw [branchAuxV2] at hs
    by_cases hg : max_depth < depth ∨ length < 3 ∨ width < 1
    · rw [if_pos hg] at hs
      simp at hs
    · rw [if_neg hg] at hs
      have hd : depth ≤ max_depth := by
        rcases Nat.lt_or_ge max_depth depth with h | h
        · exact absurd (Or.inl h) hg
        · exact h
      simp only [List.mem_cons, List.mem_append] at hs
      rcases hs with hs | hs | hs
      · subst hs
        exact ⟨⟨le_refl _, hd⟩, rfl⟩
      · have h := ih _ _ _ _ _ _ _ hs
        exact ⟨⟨by omega, h.1.2⟩, h.2⟩
      · have h := ih _ _ _ _ _ _ _ hs
        exact ⟨⟨by omega, h.1.2⟩, h.2⟩

theorem branchAuxV1_mem (sinD cosD : ℚ → ℚ) (color : RGBA) :
    ∀ (fuel : ℕ) (start : ℚ × ℚ) (angle length width : ℚ) (depth max_depth : ℕ)
      (s : Segment),
      s ∈ branchAuxV1 sinD cosD color fuel start angle length width
          depth max_depth →
      (depth ≤ s.depth ∧ s.depth ≤ max_depth) ∧ s.capR = s.width / 2 := by
  intro fuel
  induction fuel with
  | zero =>
    intro start angle length width depth max_depth s hs
    simp [branchAuxV1] at hs
  | succ m ih =>
    intro start angle length width depth max_depth s hs
    rw [branchAuxV1] at hs
    by_cases hg : max_depth < depth ∨ length < 2
    · rw [if_pos hg] at hs
      simp at hs
    · rw [if_neg hg] at hs
      have hd : depth ≤ max_depth := by
        rcases Nat.lt_or_ge max_depth depth with h | h
        · exact absurd (Or.inl h) hg
        · exact h
      simp only [List.mem_cons, List.mem_append] at hs
      rcases hs with hs | hs | hs
      · subst hs
        exact ⟨⟨le_refl _, hd⟩, rfl⟩
      · have h := ih _ _ _ _ _ _ _ hs
        exact ⟨⟨by omega, h.1.2⟩, h.2⟩
      · have h := ih _ _ _ _ _ _ _ hs
        exact ⟨⟨by omega, h.1.2⟩, h.2⟩

/-- One-step unfolding of draw_organic_branch, matching the source line for
line: the guard, the end-point computation, the per-depth parameters with
the documented default {40, 0.6, 0.7}, the asymmetric spreads depth * 3 and
depth * 2, and the two recursive calls at depth + 1. -/
theorem draw_organic_branch_step (sinD cosD : ℚ → ℚ) (start : ℚ × ℚ)
    (angle length width : ℚ) (depth max_depth : ℕ) (color : RGBA)
    (branch_data : ℕ → Option BranchParams) :
    draw_organic_branch sinD cosD start angle length width depth max_depth
        color branch_data =
      if max_depth < depth ∨ length < 3 ∨ width < 1 then []
      else
        ⟨start, (start.1 + length * sinD angle, start.2 - length * cosD angle),
            angle, length, width, width / 2.2, depth, color⟩ ::
          (draw_organic_branch sinD cosD
              (start.1 + length * sinD angle, start.2 - length * cosD angle)
              (angle - (((branch_data depth).getD ⟨40, 0.6, 0.7⟩).spread + (depth : ℚ) * 3))
              (length * ((branch_data depth).getD ⟨40, 0.6, 0.7⟩).length_factor)
              (width * ((branch_data depth).getD ⟨40, 0.6, 0.7⟩).width_factor)
              (depth + 1) max_depth color branch_data ++
            draw_organic_branch sinD cosD
              (start.1 + length * sinD angle, start.2 - length * cosD angle)
              (angle + (((branch_data depth).getD ⟨40, 0.6, 0.7⟩).spread + (depth : ℚ) * 2))
              (length * ((branch_data depth).getD ⟨40, 0.6, 0.7⟩).length_factor)
              (width * ((branch_data depth).getD ⟨40, 0.6, 0.7⟩).width_factor)
              (depth + 1) max_depth color branch_data) := by
  by_cases hd : depth ≤ max_depth
  · have h1 : max_depth + 1 - depth = (max_depth - depth) + 1 := by omega
    have h2 : max_depth + 1 - (depth + 1) = max_depth - depth := by omega
    simp only [draw_organic_branch, h1, h2]
    rfl
  · have h1 : max_depth + 1 - depth = 0 := by omega
    rw [if_pos (Or.inl (by omega : max_depth < depth))]
    simp only [draw_organic_branch, h1]
    rfl

/-- One-step unfolding of draw_branch, matching the source line for line:
the guard (depth and length only), the end-point computation, the hard-coded
decay factors 0.65 and 0.7, the symmetric spread 35 + depth * 5, and the two
recursive calls at depth + 1. -/
theorem draw_branch_step (sinD cosD : ℚ → ℚ) (start : ℚ × ℚ)
    (angle length width : ℚ) (depth max_depth : ℕ) (color : RGBA) :
    draw_branch sinD cosD start angle length width depth max_depth color =
      if max_depth < depth ∨ length < 2 then []
      else
        ⟨start, (start.1 + length * sinD angle, start.2 - length * cosD angle),
            angle, length, width, width / 2, depth, color⟩ ::
          (draw_branch sinD cosD
              (start.1 + length * sinD angle, start.2 - length * cosD angle)
              (angle - (35 + (depth : ℚ) * 5))
              (length * 0.65) (width * 0.7) (depth + 1) max_depth color ++
            draw_branch sinD cosD
              (start.1 + length * sinD angle, start.2 - length * cosD angle)
              (angle + (35 + (depth : ℚ) * 5))
              (length * 0.65) (width * 0.7) (depth + 1) max_depth color) := by
  by_cases hd : depth ≤ max_depth
  · have h1 : max_depth + 1 - depth = (max_depth - depth) + 1 := by omega
    have h2 : max_depth + 1 - (depth + 1) = max_depth - depth := by omega
    simp only [draw_branch, h1, h2]
    rfl
  · have h1 : max_depth + 1 - depth = 0 := by omega
    rw [if_pos (Or.inl (by omega : max_depth < depth))]
    simp only [draw_branch, h1]
    rfl

/-- A call of draw_organic_branch at depth 1 + 1 with max_depth 1 draws
nothing: the wrapper fuel 1 + 1 - (1 + 1) is zero exactly because the guard
depth > max_depth holds. -/
theorem draw_organic_branch_nil21 (sinD cosD : ℚ → ℚ) (start : ℚ × ℚ)
    (angle length width : ℚ) (color : RGBA)
    (branch_data : ℕ → Option BranchParams) :
    draw_organic_branch sinD cosD start angle length width (1 + 1) 1 color
      branch_data = [] := rfl

theorem sinZ_apply (a : ℚ) : sinZ a = 0 := rfl

theorem cosO_apply (a : ℚ) : cosO a = 1 := rfl

/-- A call of draw_organic_branch at depth 0 + 1 with max_depth 0 draws
nothing, again because the wrapper fuel is zero exactly when the guard
depth > max_depth holds. -/
theorem draw_organic_branch_nil10 (sinD cosD : ℚ → ℚ) (start : ℚ × ℚ)
    (angle length width : ℚ) (color : RGBA)
    (branch_data : ℕ → Option BranchParams) :
    draw_organic_branch sinD cosD start angle length width (0 + 1) 0 color
      branch_data = [] := rfl

/-- A call of draw_branch at depth 0 + 1 with max_depth 0 draws nothing. -/
theorem draw_branch_nil10 (sinD cosD : ℚ → ℚ) (start : ℚ × ℚ)
    (angle length width : ℚ) (color : RGBA) :
    draw_branch sinD cosD start angle length width (0 + 1) 0 color = [] := rfl

/-- With max_depth 0 a non-returning draw_organic_branch call draws exactly
its own segment: both recursive calls are at depth 1 > 0. -/
theorem draw_organic_branch_single (sinD cosD : ℚ → ℚ) (p : ℚ × ℚ)
    (a l w : ℚ) (color : RGBA) (bd : ℕ → Option BranchParams)
    (h3 : ¬ l < 3) (h1 : ¬ w < 1) :
    draw_organic_branch sinD cosD p a l w 0 0 color bd =
      [⟨p, (p.1 + l * sinD a, p.2 - l * cosD a), a, l, w, w / 2.2, 0, color⟩] := by
  rw [draw_organic_branch_step, if_neg (by simp [h3, h1])]
  rw [draw_organic_branch_nil10, draw_organic_branch_nil10]
  simp

/-- With max_depth 0 a non-returning draw_branch call draws exactly its own
segment. -/
theorem draw_branch_single (sinD cosD : ℚ → ℚ) (p : ℚ × ℚ)
    (a l w : ℚ) (color : RGBA) (h2 : ¬ l < 2) :
    draw_branch sinD cosD p a l w 0 0 color =
      [⟨p, (p.1 + l * sinD a, p.2 - l * cosD a), a, l, w, w / 2, 0, color⟩] := by
  rw [draw_branch_step, if_neg (by simp [h2])]
  rw [draw_branch_nil10, draw_branch_nil10]
  simp

theorem tableC1_zero : tableC1 0 = some ⟨30, 0.6, 0.7⟩ := rfl

/-- A depth-1 child call of the concrete scenario (length 30, width 7,
max_depth 1) draws exactly its own segment: its two recursive calls at
depth 2 exceed max_depth 1 and draw nothing. -/
theorem draw_organic_branch_child (sinD cosD : ℚ → ℚ) (color : RGBA)
    (p : ℚ × ℚ) (a : ℚ) :
    draw_organic_branch sinD cosD p a 30 7 1 1 color tableC1 =
      [⟨p, (p.1 + 30 * sinD a, p.2 - 30 * cosD a), a, 30, 7, 7 / 2.2, 1, color⟩] := by
  rw [draw_organic_branch_step, if_neg (by norm_num)]
  rw [draw_organic_branch_nil21, draw_organic_branch_nil21]
  simp

/-- C1 (amended): with branch table tableC1 = {0 ↦ {spread 30, length
factor 0.6, width factor 0.7}}, the call with start (100,200), angle 0,
length 50, width 10, depth 0, max_depth 1 draws exactly THREE segments, not
seven: the parent from (100,200) to (100,150), then a left child starting at
(100,150) at angle -30 and a right child at angle 30, each of length 30 and
width 7; the four grandchild calls at depth 2 return without drawing (seven
recursive calls in total, three of which draw).  Stated for every
degree-sine/degree-cosine pair with sin 0 = 0 and cos 0 = 1, which the
source's math.sin/math.cos satisfy exactly. -/
theorem draw_organic_branch_concrete_scenario (sinD cosD : ℚ → ℚ) (color : RGBA)
    (hs : sinD 0 = 0) (hc : cosD 0 = 1) :
    draw_organic_branch sinD cosD (100, 200) 0 50 10 0 1 color tableC1 =
      [⟨(100, 200), (100, 150), 0, 50, 10, 10 / 2.2, 0, color⟩,
       ⟨(100, 150), (100 + 30 * sinD (-30), 150 - 30 * cosD (-30)), -30, 30, 7,
         7 / 2.2, 1, color⟩,
       ⟨(100, 150), (100 + 30 * sinD 30, 150 - 30 * cosD 30), 30, 30, 7,
         7 / 2.2, 1, color⟩] := by
  rw [draw_organic_branch_step, if_neg (by norm_num)]
  norm_num [hs, hc, tableC1_zero]
  rw [draw_organic_branch_child, draw_organic_branch_child]
  norm_num

/-- Witness for C1: the theorem applied to the concrete trig stand-ins sinZ
and cosO, whose values at 0 discharge the two hypotheses. -/
theorem draw_organic_branch_concrete_scenario_witness :
    draw_organic_branch sinZ cosO (100, 200) 0 50 10 0 1 black tableC1 =
      [⟨(100, 200), (100, 150), 0, 50, 10, 10 / 2.2, 0, black⟩,
       ⟨(100, 150), (100 + 30 * sinZ (-30), 150 - 30 * cosO (-30)), -30, 30, 7,
         7 / 2.2, 1, black⟩,
       ⟨(100, 150), (100 + 30 * sinZ 30, 150 - 30 * cosO 30), 30, 30, 7,
         7 / 2.2, 1, black⟩] :=
  draw_organic_branch_concrete_scenario sinZ cosO black rfl rfl

/-- Counterexample for C1 as stated: in the concrete scenario exactly 3
segments are drawn, and 3 is not the claimed 7. -/
theorem draw_organic_branch_concrete_scenario_count :
    (draw_organic_branch sinZ cosO (100, 200) 0 50 10 0 1 black tableC1).length = 3 ∧
      (3 : ℕ) ≠ 7 := by
  refine ⟨?_, by norm_num⟩
  rw [draw_organic_branch_step, if_neg (by norm_num)]
  norm_num [sinZ_apply, cosO_apply, tableC1_zero]
  rw [draw_organic_branch_child, draw_organic_branch_child]
  simp

/-- C2: for every max_depth and branch table whose decay factors lie in
(0,1], both synthesizer variants started at depth 0 draw at most
2 ^ (max_depth + 1) - 1 segments, and every drawn segment lies at a
recursion depth between 0 and max_depth.  Termination itself is definitional
in this embedding: both functions are total, with recursion bounded by
max_depth + 1 - depth, so at most max_depth + 1 levels execute. -/
theorem branch_synthesizer_depth_and_count (sinD cosD : ℚ → ℚ)
    (start : ℚ × ℚ) (angle length width : ℚ) (max_depth : ℕ) (color : RGBA)
    (branch_data : ℕ → Option BranchParams)
    (hbd : ∀ d p, branch_data d = some p →
      (0 < p.length_factor ∧ p.length_factor ≤ 1) ∧
      (0 < p.width_factor ∧ p.width_factor ≤ 1)) :
    ((draw_organic_branch sinD cosD start angle length width 0 max_depth color
          branch_data).length ≤ 2 ^ (max_depth + 1) - 1 ∧
      ∀ s ∈ draw_organic_branch sinD cosD start angle length width 0 max_depth
          color branch_data, s.depth ≤ max_depth) ∧
    ((draw_branch sinD cosD start angle length width 0 max_depth color).length
        ≤ 2 ^ (max_depth + 1) - 1 ∧
      ∀ s ∈ draw_branch sinD cosD start angle length width 0 max_depth color,
        s.depth ≤ max_depth) := by
  refine ⟨⟨?_, ?_⟩, ?_, ?_⟩
  · simpa [draw_organic_branch] using
      branchAuxV2_length_le sinD cosD color branch_data (max_depth + 1)
        start angle length width 0 max_depth
  · intro s hs
    exact (branchAuxV2_mem sinD cosD color branch_data (max_depth + 1)
      start angle length width 0 max_depth s
      (by simpa [draw_organic_branch] using hs)).1.2
  · simpa [draw_branch] using
      branchAuxV1_length_le sinD cosD color (max_depth + 1)
        start angle length width 0 max_depth
  · intro s hs
    exact (branchAuxV1_mem sinD cosD color (max_depth + 1)
      start angle length width 0 max_depth s
      (by simpa [draw_branch] using hs)).1.2

/-- Witness for C2: both bounds evaluated at a concrete call with max_depth
0 and the empty branch table, whose single drawn segment is segW3
(respectively segW4). -/
theorem branch_synthesizer_depth_and_count_witness :
    ((draw_organic_branch sinZ cosO (0, 0) 0 100 10 0 0 black
          (fun _ => none)).length ≤ 2 ^ (0 + 1) - 1 ∧ segW3.depth ≤ 0) ∧
    ((draw_branch sinZ cosO (0, 0) 0 100 10 0 0 black).length
        ≤ 2 ^ (0 + 1) - 1 ∧ segW4.depth ≤ 0) := by
  have h := branch_synthesizer_depth_and_count sinZ cosO (0, 0) 0 100 10 0 black
    (fun _ => none) (fun _ _ hp => nomatch hp)
  have e2 : draw_organic_branch sinZ cosO (0, 0) 0 100 10 0 0 black
      (fun _ => none) = [segW3] := by
    rw [draw_organic_branch_single sinZ cosO (0, 0) 0 100 10 black
      (fun _ => none) (by norm_num) (by norm_num)]
    norm_num [sinZ_apply, cosO_apply, segW3]
  have e1 : draw_branch sinZ cosO (0, 0) 0 100 10 0 0 black = [segW4] := by
    rw [draw_branch_single sinZ cosO (0, 0) 0 100 10 black (by norm_num)]
    norm_num [sinZ_apply, cosO_apply, segW4]
  exact ⟨⟨h.1.1, h.1.2 segW3 (by rw [e2]; simp)⟩, h.2.1,
    h.2.2 segW4 (by rw [e1]; simp)⟩

/-- C7 (amended): draw_organic_branch returns without drawing anything
exactly when depth > max_depth, length < 3, or width < 1; draw_branch
returns without drawing exactly when depth > max_depth or length < 2 — the
first variant has no width condition in its guard. -/
theorem branch_return_conditions (sinD cosD : ℚ → ℚ) (start : ℚ × ℚ)
    (angle length width : ℚ) (depth max_depth : ℕ) (color : RGBA)
    (branch_data : ℕ → Option BranchParams) :
    (draw_organic_branch sinD cosD start angle length width depth max_depth
        color branch_data = [] ↔
      max_depth < depth ∨ length < 3 ∨ width < 1) ∧
    (draw_branch sinD cosD start angle length width depth max_depth color = []
      ↔ max_depth < depth ∨ length < 2) := by
  constructor
  · rw [draw_organic_branch_step]
    by_cases hg : max_depth < depth ∨ length < 3 ∨ width < 1
    · simp [hg]
    · simp [hg]
  · rw [draw_branch_step]
    by_cases hg : max_depth < depth ∨ length < 2
    · simp [hg]
    · simp [hg]

/-- Counterexample for C7 as stated: draw_branch called with width 1/2 < 1
(depth 0, max_depth 0, length 10) draws its segment rather than returning
empty, because its guard never inspects the width. -/
theorem draw_branch_ignores_small_width :
    (1 / 2 : ℚ) < 1 ∧
      draw_branch sinZ cosO (0, 0) 0 10 (1 / 2) 0 0 black ≠ [] := by
  refine ⟨by norm_num, ?_⟩
  rw [draw_branch_single sinZ cosO (0, 0) 0 10 (1 / 2) black (by norm_num)]
  simp

/-- C8 (amended): every segment drawn by draw_branch is capped by a filled
circle of radius exactly width / 2, while every segment drawn by
draw_organic_branch is capped with radius width / 2.2. -/
theorem branch_cap_radii (sinD cosD : ℚ → ℚ) (start : ℚ × ℚ)
    (angle length width : ℚ) (depth max_depth : ℕ) (color : RGBA)
    (branch_data : ℕ → Option BranchParams) :
    (∀ s ∈ draw_branch sinD cosD start angle length width depth max_depth color,
        s.capR = s.width / 2) ∧
    (∀ s ∈ draw_organic_branch sinD cosD start angle length width depth
        max_depth color branch_data, s.capR = s.width / 2.2) := by
  constructor
  · intro s hs
    exact (branchAuxV1_mem sinD cosD color (max_depth + 1 - depth)
      start angle length width depth max_depth s hs).2
  · intro s hs
    exact (branchAuxV2_mem sinD cosD color branch_data (max_depth + 1 - depth)
      start angle length width depth max_depth s hs).2

/-- Witness for C8: the cap radii of the concrete segments segW1 (drawn by
draw_branch) and segW2 (drawn by draw_organic_branch). -/
theorem branch_cap_radii_witness :
    segW1.capR = segW1.width / 2 ∧ segW2.capR = segW2.width / 2.2 := by
  have e1 : draw_branch sinZ cosO (0, 0) 0 10 10 0 0 black = [segW1] := by
    rw [draw_branch_single sinZ cosO (0, 0) 0 10 10 black (by norm_num)]
    norm_num [sinZ_apply, cosO_apply, segW1]
  have e2 : draw_organic_branch sinZ cosO (0, 0) 0 10 10 0 0 black
      (fun _ => none) = [segW2] := by
    rw [draw_organic_branch_single sinZ cosO (0, 0) 0 10 10 black
      (fun _ => none) (by norm_num) (by norm_num)]
    norm_num [sinZ_apply, cosO_apply, segW2]
  exact ⟨(branch_cap_radii sinZ cosO (0, 0) 0 10 10 0 0 black
      (fun _ => none)).1 segW1 (by rw [e1]; simp),
    (branch_cap_radii sinZ cosO (0, 0) 0 10 10 0 0 black
      (fun _ => none)).2 segW2 (by rw [e2]; simp)⟩

/-- Counterexample for C8 as stated: the segment draw_organic_branch draws
at width 10 carries cap radius 10 / 2.2 = 50/11, which differs from the
claimed width / 2 = 5. -/
theorem draw_organic_branch_cap_not_half_width :
    (draw_organic_branch sinZ cosO (0, 0) 0 10 10 0 0 black
        (fun _ => none)).map Segment.capR = [50 / 11] ∧
      (50 / 11 : ℚ) ≠ 10 / 2 := by
  constructor
  · rw [draw_organic_branch_single sinZ cosO (0, 0) 0 10 10 black
      (fun _ => none) (by norm_num) (by norm_num)]
    norm_num
  · norm_num

/-- C6 (amended): the code defines no InvalidDimension validation of its
own.  A negative canvas size does fail before any drawing, but only through
PIL's Image.new ValueError; a zero target size — still non-positive — is
accepted, and the renderer proceeds to draw on the empty canvas; and
clean_and_resize never validates its padding ratio: an out-of-range padding
such as -1/10 is accepted and the call completes normally (stated for any
resize collaborator that honors the requested size). -/
theorem icon_renderer_dimension_behavior (sinD cosD : ℚ → ℚ) (size : ℤ)
    (color : RGBA) (bg_color : Option RGBA) (pf : ℚ)
    (resize : Img → ℕ → ℕ → Img) (paste : Img → Img → ℤ → ℤ → Img)
    (hrs : ∀ im w h, (resize im w h).width = w ∧ (resize im w h).height = h) :
    (size < 0 → create_grove_dock_icon_v2 sinD cosD size color bg_color pf =
        Except.error PILError.valueError) ∧
    (0 ≤ size → create_grove_dock_icon_v2 sinD cosD size color bg_color pf =
        Except.ok (icon_ops sinD cosD size color bg_color pf) ∧
      0 < (icon_ops sinD cosD size color bg_color pf).length) ∧
    (clean_and_resize resize paste imgC3 64 (-1 / 10)).width = 64 := by
  refine ⟨fun hneg => ?_, fun hpos => ⟨?_, ?_⟩, ?_⟩
  · simp [create_grove_dock_icon_v2, hneg]
  · simp [create_grove_dock_icon_v2, not_lt.mpr hpos]
  · simp only [icon_ops, List.length_cons]
    omega
  · have hbb : getbbox imgC3 = some (5, 5, 11, 13) := by decide
    simp only [clean_and_resize, hbb]
    exact (hrs _ 64 64).1

/-- Witness for C6: the theorem applied at the negative size -5 (PIL error
before drawing), at size 3 (drawing proceeds), and with the concrete
collaborators rz0 and ps0 for the unvalidated padding -1/10. -/
theorem icon_renderer_dimension_behavior_witness :
    create_grove_dock_icon_v2 sinZ cosO (-5) black none (8 / 100) =
        Except.error PILError.valueError ∧
    (create_grove_dock_icon_v2 sinZ cosO 3 black none (8 / 100) =
        Except.ok (icon_ops sinZ cosO 3 black none (8 / 100)) ∧
      0 < (icon_ops sinZ cosO 3 black none (8 / 100)).length) ∧
    (clean_and_resize rz0 ps0 imgC3 64 (-1 / 10)).width = 64 := by
  have h1 := icon_renderer_dimension_behavior sinZ cosO (-5) black none
    (8 / 100) rz0 ps0 (fun im w h => ⟨rfl, rfl⟩)
  have h2 := icon_renderer_dimension_behavior sinZ cosO 3 black none
    (8 / 100) rz0 ps0 (fun im w h => ⟨rfl, rfl⟩)
  exact ⟨h1.1 (by norm_num), h2.2.1 (by norm_num), h2.2.2⟩

/-- Counterexample for C6 as stated: at target_size 0, which is
non-positive, the supersampled renderer does not fail before drawing: PIL
accepts the 0 x 0 canvas and the renderer emits 9 drawing operations
(trunk line, connection line, git tag). -/
theorem create_supersampled_v2_draws_at_zero :
    (0 : ℤ) ≤ 0 ∧
      create_supersampled_v2 sinZ cosO 0 black none 4 =
        Except.ok (icon_ops sinZ cosO (0 * 4) black none 0.08) ∧
      (icon_ops sinZ cosO (0 * 4) black none 0.08).length = 9 := by
  refine ⟨le_refl 0, rfl, ?_⟩
  simp only [icon_ops]
  rw [draw_organic_branch_step]
  rw [if_pos (Or.inr (Or.inl (by norm_num)))]
  rw [draw_organic_branch_step]
  rw [if_pos (Or.inr (Or.inl (by norm_num)))]
  simp [draw_git_tag_diamond]

/-- C3 (amended): for the image whose non-transparent pixels are exactly
(5,5) and (10,12), getbbox returns (5, 5, 11, 13): PIL bounding boxes are
exclusive on the right and lower edges (one past the extreme foreground
coordinates), matching the crop that clean_and_resize performs with them. -/
theorem getbbox_two_pixels : getbbox imgC3 = some (5, 5, 11, 13) := by decide

/-- Counterexample for C3 as stated: the computed box is (5,5,11,13), which
differs from the claimed inclusive box (5,5,10,12). -/
theorem getbbox_two_pixels_not_inclusive :
    getbbox imgC3 = some (5, 5, 11, 13) ∧
      ((5, 5, 11, 13) : ℕ × ℕ × ℕ × ℕ) ≠ (5, 5, 10, 12) := by
  constructor
  · decide
  · decide

/-- Foreground scan of a fully transparent image is empty. -/
theorem foreground_eq_nil_of_transparent (img : Img)
    (h : ∀ x y, x < img.width → y < img.height → img.px x y = transparent) :
    foreground img = [] := by
  apply List.eq_nil_iff_forall_not_mem.mpr
  intro p hp
  simp only [foreground, List.mem_flatMap, List.mem_filterMap,
    List.mem_range] at hp
  obtain ⟨x, hx, y, hy, hpy⟩ := hp
  rw [if_pos (h x y hx hy)] at hpy
  exact Option.noConfusion hpy

/-- getbbox of a fully transparent image is none. -/
theorem getbbox_eq_none_of_transparent (img : Img)
    (h : ∀ x y, x < img.width → y < img.height → img.px x y = transparent) :
    getbbox img = none := by
  simp only [getbbox, foreground_eq_nil_of_transparent img h]

/-- C4: for every fully transparent input (hence a null bounding box) and
every positive target size, clean_and_resize takes the fallback branch — a
plain resize of the input — and returns a fully transparent
target_size x target_size canvas; no code path on this branch can fail.
Stated for every resize collaborator that honors the requested size and
maps transparent input to transparent output, as PIL's Lanczos resize does
(resampling weights applied to all-zero channels give zero). -/
theorem clean_and_resize_empty_trace (resize : Img → ℕ → ℕ → Img)
    (paste : Img → Img → ℤ → ℤ → Img)
    (hrs : ∀ im w h, (resize im w h).width = w ∧ (resize im w h).height = h)
    (hrt : ∀ im w h,
      (∀ x y, x < im.width → y < im.height → im.px x y = transparent) →
      ∀ x y, x < w → y < h → (resize im w h).px x y = transparent)
    (img : Img) (target_size : ℕ) (hts : 0 < target_size) (padding : ℚ)
    (himg : ∀ x y, x < img.width → y < img.height → img.px x y = transparent) :
    (clean_and_resize resize paste img target_size padding).width = target_size ∧
    (clean_and_resize resize paste img target_size padding).height = target_size ∧
    ∀ x y, x < target_size → y < target_size →
      (clean_and_resize resize paste img target_size padding).px x y =
        transparent := by
  have hbb := getbbox_eq_none_of_transparent img himg
  simp only [clean_and_resize, hbb]
  exact ⟨(hrs img target_size target_size).1, (hrs img target_size target_size).2,
    fun x y hx hy => hrt img target_size target_size himg x y hx hy⟩

/-- Witness for C4: the fully transparent 4 x 4 image imgT resized to 2,
using the concrete collaborators rz0 and ps0. -/
theorem clean_and_resize_empty_trace_witness :
    (clean_and_resize rz0 ps0 imgT 2 (1 / 10)).width = 2 ∧
    (clean_and_resize rz0 ps0 imgT 2 (1 / 10)).height = 2 ∧
    (clean_and_resize rz0 ps0 imgT 2 (1 / 10)).px 0 0 = transparent := by
  have h := clean_and_resize_empty_trace rz0 ps0
    (fun im w hh => ⟨rfl, rfl⟩) (fun im w hh _ x y hx hy => rfl)
    imgT 2 (by norm_num) (1 / 10) (fun x y hx hy => rfl)
  exact ⟨h.1, h.2.1, h.2.2 0 0 (by norm_num) (by norm_num)⟩

/-- C5: create_light_version preserves the alpha channel pixel for pixel and
forces RGB to pure white wherever alpha is positive. -/
theorem create_light_version_preserves_alpha (dark_img : Img) (x y : ℕ)
    (hx : x < dark_img.width) (hy : y < dark_img.height) :
    ((create_light_version dark_img).px x y).a = (dark_img.px x y).a ∧
    (0 < (dark_img.px x y).a →
      ((create_light_version dark_img).px x y).r = 255 ∧
      ((create_light_version dark_img).px x y).g = 255 ∧
      ((create_light_version dark_img).px x y).b = 255) := by
  simp only [create_light_version]
  by_cases h : 0 < (dark_img.px x y).a
  · simp [h]
  · simp only [if_neg h, transparent]
    exact ⟨by omega, fun hpos => absurd hpos h⟩

/-- Witness for C5: the 1 x 1 image imgD with pixel (3,4,5,200). -/
theorem create_light_version_preserves_alpha_witness :
    ((create_light_version imgD).px 0 0).a = (imgD.px 0 0).a ∧
    (((create_light_version imgD).px 0 0).r = 255 ∧
      ((create_light_version imgD).px 0 0).g = 255 ∧
      ((create_light_version imgD).px 0 0).b = 255) := by
  have h := create_light_version_preserves_alpha imgD 0 0 (by decide) (by decide)
  exact ⟨h.1, h.2 (by decide)⟩

/-- C9: every pixel of the image returned by trace_reference is either
opaque black (0,0,0,255) or fully transparent (0,0,0,0); in particular the
alpha channel is binary and RGB is black everywhere. -/
theorem trace_reference_binary (ref : Img) (x y : ℕ) :
    (trace_reference ref).1.px x y = black ∨
      (trace_reference ref).1.px x y = transparent := by
  simp only [trace_reference]
  by_cases h : lum (ref.px x y) < 128
  · left
    simp [h]
  · right
    simp [h]

/-- C10: the output of create_light_version is determined by the input's
alpha channel alone: two same-sized inputs with equal per-pixel alpha give
pixel-for-pixel identical outputs, whatever their RGB values. -/
theorem create_light_version_alpha_determined (im1 im2 : Img)
    (hw : im1.width = im2.width) (hh : im1.height = im2.height)
    (ha : ∀ x y, x < im1.width → y < im1.height →
      (im1.px x y).a = (im2.px x y).a) :
    (create_light_version im1).width = (create_light_version im2).width ∧
    (create_light_version im1).height = (create_light_version im2).height ∧
    ∀ x y, x < im1.width → y < im1.height →
      (create_light_version im1).px x y = (create_light_version im2).px x y := by
  refine ⟨hw, hh, fun x y hx hy => ?_⟩
  simp only [create_light_version]
  rw [ha x y hx hy]

/-- Witness for C10: the images imgA and imgB share alpha 77 but have
different RGB values, and their light versions agree. -/
theorem create_light_version_alpha_determined_witness :
    (create_light_version imgA).width = (create_light_version imgB).width ∧
    (create_light_version imgA).height = (create_light_version imgB).height ∧
    (create_light_version imgA).px 0 0 = (create_light_version imgB).px 0 0 := by
  have h := create_light_version_alpha_determined imgA imgB rfl rfl
    (fun x y hx hy => rfl)
  exact ⟨h.1, h.2.1, h.2.2 0 0 (by decide) (by decide)⟩
